import Mathlib

/-!
Verification of the frame-walking core of `src/training/data_streamer.py`
(class `DataStreamer`) and of the alternative implementation in
`src/training/datastreamer.py`, against the repository's specification.

The remote archive is modelled as a finite list of byte values; a ranged
fetch past the end of the archive is the transport failure (`FetchError`)
that the specification says a short read surfaces as.  Byte positions,
passed around as decimal strings in the Python source (`byte_pos: str`,
converted with `int(...)` / `str(...)` at every use), are modelled as the
natural numbers those strings denote.
-/

namespace DataStreamerPy

/-- The remote compressed archive: a finite sequence of byte values. -/
abbrev ByteStream := List Nat

/-- Source: `self.FRAME_MAGIC_NUMBER = int('0xFD2FB528', 16)`. -/
def FRAME_MAGIC_NUMBER : Nat := 0xFD2FB528

/-- Source: `self.SKIPPABLE_MAGIC_NUMBER = int('0x184D2A50', 16)`. -/
def SKIPPABLE_MAGIC_NUMBER : Nat := 0x184D2A50

/-- Models `int.from_bytes(bs, byteorder='little')`: little-endian interpretation,
first byte least significant. -/
def fromBytesLE : List Nat → Nat
  | [] => 0
  | b :: bs => b + 256 * fromBytesLE bs

/-- Errors surfaced by the traversal: a transport failure (what the
specification calls `FetchError`, raised by `requests` / surfaced by a short
read), and the explicit `raise Exception("Could not find frame magic number
in zstd file.")` (the specification's `FormatError`). -/
inductive StreamError where
  | fetchError
  | formatError
deriving DecidableEq, Repr

/-- Models `get_n_bytes(start_byte, n_range)`: ranged fetch of `n_range` bytes
starting at `start_byte`.  Reading past the end of the archive is the
transport error case and yields `none`. -/
def get_n_bytes (s : ByteStream) (start_byte n_range : Nat) : Option (List Nat) :=
  if start_byte + n_range ≤ s.length then
    some ((s.drop start_byte).take n_range)
  else
    none

/-- Models `skip_frame(byte_pos)`: reads the 4-byte little-endian `frame_size`
at `byte_pos + 4` and returns `byte_pos + 8 + frame_size`. -/
def skip_frame (s : ByteStream) (byte_pos : Nat) : Option Nat :=
  match get_n_bytes s (byte_pos + 4) 4 with
  | none => none
  | some frame_size_bytes => some (byte_pos + 8 + fromBytesLE frame_size_bytes)

theorem get_n_bytes_le {s : ByteStream} {pos n : Nat} {bs : List Nat}
    (h : get_n_bytes s pos n = some bs) : pos + n ≤ s.length := by
  unfold get_n_bytes at h
  split at h
  · assumption
  · exact absurd h (by simp)

theorem get_n_bytes_length {s : ByteStream} {pos n : Nat} {bs : List Nat}
    (h : get_n_bytes s pos n = some bs) : bs.length = n := by
  have hle := get_n_bytes_le h
  unfold get_n_bytes at h
  rw [if_pos hle] at h
  obtain rfl : (s.drop pos).take n = bs := by injection h
  simp [List.length_take, List.length_drop]
  omega

theorem skip_frame_ge {s : ByteStream} {pos r : Nat}
    (h : skip_frame s pos = some r) : pos + 8 ≤ r := by
  unfold skip_frame at h
  split at h
  · exact absurd h (by simp)
  · injection h with h
    omega

/-- Models `find_data_frame(byte_pos)`: reads the 4-byte magic number at
`byte_pos`; a skippable frame is skipped via `skip_frame` and the search
recurses at the new position, the data-frame magic returns `byte_pos`
itself, and any other value raises (`FormatError`).

The recursion terminates because each skip moves at least 8 bytes forward
while a successful magic read keeps the position inside the archive. -/
def find_data_frame (s : ByteStream) (byte_pos : Nat) : Except StreamError Nat :=
  match hm : get_n_bytes s byte_pos 4 with
  | none => .error .fetchError
  | some magic_bytes =>
    if fromBytesLE magic_bytes = SKIPPABLE_MAGIC_NUMBER then
      match hs : skip_frame s byte_pos with
      | none => .error .fetchError
      | some next_pos => find_data_frame s next_pos
    else if fromBytesLE magic_bytes = FRAME_MAGIC_NUMBER then
      .ok byte_pos
    else
      .error .formatError
termination_by s.length - byte_pos
decreasing_by
  have h1 := get_n_bytes_le hm
  have h2 := skip_frame_ge hs
  omega

/-- Number of 4-byte magic-number fetches performed by `find_data_frame`:
one for the call itself plus those of the recursive call after a skip.
(Instrumentation of `find_data_frame`; it performs no fetch itself.) -/
def magic_reads (s : ByteStream) (byte_pos : Nat) : Nat :=
  match hm : get_n_bytes s byte_pos 4 with
  | none => 1
  | some magic_bytes =>
    if fromBytesLE magic_bytes = SKIPPABLE_MAGIC_NUMBER then
      match hs : skip_frame s byte_pos with
      | none => 1
      | some next_pos => 1 + magic_reads s next_pos
    else 1
termination_by s.length - byte_pos
decreasing_by
  have h1 := get_n_bytes_le hm
  have h2 := skip_frame_ge hs
  omega

/-- The digits of Python's `bin(n)` string (most significant first; `bin(0)`
is `'0b0'`, a single digit `0`).  The first argument is recursion fuel:
`fuel ≥ log₂ n` makes the digit list exact, and the last digit — the only
part the source inspects, via `bin(block_header)[-1]` — is `n % 2` for
every fuel (`binDigitsAux_getLastD`). -/
def binDigitsAux : Nat → Nat → List Nat
  | 0, n => [n % 2]
  | fuel + 1, n => if n < 2 then [n] else binDigitsAux fuel (n / 2) ++ [n % 2]

/-- Digits of `bin(n)`, most significant first, with enough fuel. -/
def binDigits (n : Nat) : List Nat := binDigitsAux n n

theorem binDigitsAux_getLastD (fuel n : Nat) :
    (binDigitsAux fuel n).getLastD 0 = n % 2 := by
  induction fuel generalizing n with
  | zero => rfl
  | succ fuel ih =>
    unfold binDigitsAux
    split
    · have : n % 2 = n := Nat.mod_eq_of_lt (by omega)
      simp [this]
    · simp [List.getLastD_concat]

/-- Python's `int(bin(block_header)[-1])` is the last binary digit of the header,
i.e. its least-significant bit. -/
theorem binDigits_getLastD (n : Nat) : (binDigits n).getLastD 0 = n % 2 :=
  binDigitsAux_getLastD n n

theorem binDigits_getLast? (n : Nat) :
    (binDigits n).getLast?.getD 0 = n % 2 := by
  rw [← List.getLastD_eq_getLast?]
  exact binDigits_getLastD n

/-- Models `check_block_header(byte_pos)`: reads the 3-byte little-endian block
header at `byte_pos`; `is_last_block = int(bin(block_header)[-1])` (the last
binary digit), `block_content_size = block_header >> 3`, and the next block
starts at `byte_pos + 3 + block_content_size`. -/
def check_block_header (s : ByteStream) (byte_pos : Nat) : Option (Nat × Nat) :=
  let block_header_size := 3
  match get_n_bytes s byte_pos block_header_size with
  | none => none
  | some header_bytes =>
    let block_header := fromBytesLE header_bytes
    let is_last_block := (binDigits block_header).getLastD 0
    let block_content_size := block_header >>> 3
    some (is_last_block, byte_pos + block_header_size + block_content_size)

theorem check_block_header_bounds {s : ByteStream} {pos b n : Nat}
    (h : check_block_header s pos = some (b, n)) :
    pos + 3 ≤ s.length ∧ pos + 3 ≤ n := by
  unfold check_block_header at h
  simp only at h
  split at h
  · exact absurd h (by simp)
  · next heq =>
    have := get_n_bytes_le heq
    simp only [Option.some.injEq, Prod.mk.injEq] at h
    omega

/-- The `while not is_last_block` loop of `get_frame_size`: starting from a
block position, returns `last_pos`, the start offset of the first block
whose header has the last-block flag set (the loop records each block's
start in `last_pos` before reading its header, so on exit `last_pos` is the
start of the block that was flagged last). -/
def walk_blocks (s : ByteStream) (block_pos : Nat) : Option Nat :=
  match hc : check_block_header s block_pos with
  | none => none
  | some (is_last_block, next_pos) =>
    if is_last_block = 0 then walk_blocks s next_pos else some block_pos
termination_by s.length - block_pos
decreasing_by
  have := check_block_header_bounds hc
  omega

/-- Models `get_frame_size(byte_pos)`: skips the hardcoded 6-byte frame header,
walks the blocks until the last-block flag, and returns
`last_pos - byte_pos + 4` (`+4` for the checksum), where `last_pos` is the
start offset of the flagged block. -/
def get_frame_size (s : ByteStream) (byte_pos : Nat) : Option Int :=
  let frame_header_size := 6
  let block_pos := byte_pos + frame_header_size
  match walk_blocks s block_pos with
  | none => none
  | some last_pos => some ((last_pos : Int) - (byte_pos : Int) + 4)

theorem find_data_frame_fetch_fail {s : ByteStream} {pos : Nat}
    (h : get_n_bytes s pos 4 = none) :
    find_data_frame s pos = .error .fetchError := by
  unfold find_data_frame
  split
  · rfl
  · next _ heq => rw [h] at heq; cases heq

theorem find_data_frame_data {s : ByteStream} {pos : Nat} {mb : List Nat}
    (hm : get_n_bytes s pos 4 = some mb)
    (hd : fromBytesLE mb = FRAME_MAGIC_NUMBER) :
    find_data_frame s pos = .ok pos := by
  conv_lhs => unfold find_data_frame
  split
  · next heq => rw [hm] at heq; cases heq
  · next magic_bytes heq =>
    rw [hm] at heq
    injection heq with heq
    subst heq
    rw [if_neg (by rw [hd]; decide), if_pos hd]

theorem find_data_frame_skip_step {s : ByteStream} {pos r : Nat} {mb : List Nat}
    (hm : get_n_bytes s pos 4 = some mb)
    (hsk : fromBytesLE mb = SKIPPABLE_MAGIC_NUMBER)
    (hr : skip_frame s pos = some r) :
    find_data_frame s pos = find_data_frame s r := by
  conv_lhs => unfold find_data_frame
  split
  · next heq => rw [hm] at heq; cases heq
  · next magic_bytes heq =>
    rw [hm] at heq
    injection heq with heq
    subst heq
    rw [if_pos hsk]
    split
    · next heq2 => rw [hr] at heq2; cases heq2
    · next next_pos heq2 =>
      rw [hr] at heq2
      injection heq2 with heq2
      subst heq2
      rfl

theorem find_data_frame_bad_magic {s : ByteStream} {pos : Nat} {mb : List Nat}
    (hm : get_n_bytes s pos 4 = some mb)
    (h1 : fromBytesLE mb ≠ SKIPPABLE_MAGIC_NUMBER)
    (h2 : fromBytesLE mb ≠ FRAME_MAGIC_NUMBER) :
    find_data_frame s pos = .error .formatError := by
  conv_lhs => unfold find_data_frame
  split
  · next heq => rw [hm] at heq; cases heq
  · next magic_bytes heq =>
    rw [hm] at heq
    injection heq with heq
    subst heq
    rw [if_neg h1, if_neg h2]

theorem magic_reads_not_skippable {s : ByteStream} {pos : Nat} {mb : List Nat}
    (hm : get_n_bytes s pos 4 = some mb)
    (h1 : fromBytesLE mb ≠ SKIPPABLE_MAGIC_NUMBER) :
    magic_reads s pos = 1 := by
  unfold magic_reads
  split
  · rfl
  · next magic_bytes heq =>
    rw [hm] at heq
    injection heq with heq
    subst heq
    rw [if_neg h1]

theorem magic_reads_skip_step {s : ByteStream} {pos r : Nat} {mb : List Nat}
    (hm : get_n_bytes s pos 4 = some mb)
    (hsk : fromBytesLE mb = SKIPPABLE_MAGIC_NUMBER)
    (hr : skip_frame s pos = some r) :
    magic_reads s pos = 1 + magic_reads s r := by
  conv_lhs => unfold magic_reads
  split
  · next heq => rw [hm] at heq; cases heq
  · next magic_bytes heq =>
    rw [hm] at heq
    injection heq with heq
    subst heq
    rw [if_pos hsk]
    split
    · next heq2 => rw [hr] at heq2; cases heq2
    · next next_pos heq2 =>
      rw [hr] at heq2
      injection heq2 with heq2
      subst heq2
      rfl

theorem walk_blocks_last {s : ByteStream} {pos b n : Nat}
    (hc : check_block_header s pos = some (b, n)) (hb : b ≠ 0) :
    walk_blocks s pos = some pos := by
  unfold walk_blocks
  split
  · next heq => rw [hc] at heq; cases heq
  · next b' n' heq =>
    rw [hc] at heq
    simp only [Option.some.injEq, Prod.mk.injEq] at heq
    obtain ⟨rfl, rfl⟩ := heq
    rw [if_neg hb]

theorem walk_blocks_step {s : ByteStream} {pos n : Nat}
    (hc : check_block_header s pos = some (0, n)) :
    walk_blocks s pos = walk_blocks s n := by
  conv_lhs => unfold walk_blocks
  split
  · next heq => rw [hc] at heq; cases heq
  · next b' n' heq =>
    rw [hc] at heq
    simp only [Option.some.injEq, Prod.mk.injEq] at heq
    obtain ⟨rfl, rfl⟩ := heq
    rw [if_pos rfl]

/-- The mutable state of a `DataStreamer` instance that the specification's
`StreamCursor` corresponds to: the archive URL and the current byte
position, both loaded from the persisted metadata in `__init__`. -/
structure DataStreamerState where
  url : String
  current_pos : Nat
deriving DecidableEq, Repr

/-- Models `download_frame(byte_pos)`: resolves the data-frame start with
`find_data_frame`, computes the frame size with `get_frame_size`, prints it,
and returns Python `None` (modelled as `Except.ok none`).  The instance
state is threaded explicitly; the method never assigns `self.url` or
`self.current_pos`, so every path — including every raising path — returns
the state it received. -/
def download_frame (s : ByteStream) (st : DataStreamerState) (byte_pos : Nat) :
    Except StreamError (Option ByteStream) × DataStreamerState :=
  match find_data_frame s byte_pos with
  | .error e => (.error e, st)
  | .ok frame_pos =>
    match get_frame_size s frame_pos with
    | none => (.error .fetchError, st)
    | some _frame_size => (.ok none, st)

/-- A chain of `k` valid skippable frames in the archive: starting at `pos`,
`k` frames carrying the skippable magic number, each with a readable 4-byte
declared size, followed at the chain's end by the data-frame magic number at
offset `d`. -/
inductive ChainToData (s : ByteStream) : Nat → Nat → Nat → Prop where
  | data (pos : Nat) (mb : List Nat)
      (hm : get_n_bytes s pos 4 = some mb)
      (hd : fromBytesLE mb = FRAME_MAGIC_NUMBER) :
      ChainToData s pos 0 pos
  | skip (pos k d : Nat) (mb fsb : List Nat)
      (hm : get_n_bytes s pos 4 = some mb)
      (hsk : fromBytesLE mb = SKIPPABLE_MAGIC_NUMBER)
      (hf : get_n_bytes s (pos + 4) 4 = some fsb)
      (hrest : ChainToData s (pos + 8 + fromBytesLE fsb) k d) :
      ChainToData s pos (k + 1) d

/-- A chain of readable block headers that reaches a header whose
least-significant bit is set (the loop's exit condition). -/
inductive BlocksReachLast (s : ByteStream) : Nat → Prop where
  | last (pos b n : Nat)
      (hc : check_block_header s pos = some (b, n)) (hb : b ≠ 0) :
      BlocksReachLast s pos
  | step (pos n : Nat)
      (hc : check_block_header s pos = some (0, n))
      (hrest : BlocksReachLast s n) :
      BlocksReachLast s pos

theorem walk_blocks_isSome_of_reach {s : ByteStream} {pos : Nat}
    (h : BlocksReachLast s pos) : ∃ l, walk_blocks s pos = some l := by
  induction h with
  | last pos b n hc hb => exact ⟨pos, walk_blocks_last hc hb⟩
  | step pos n hc hrest ih => exact (walk_blocks_step hc) ▸ ih

end DataStreamerPy

namespace DatastreamerAlt

/-!
Embedding of the alternative implementation `src/training/datastreamer.py`.
Its constructor fails by Python name resolution, so the embedding models the
two name lookups the constructor performs: `new_stream` evaluates the bare
name `url` against the module's global namespace, and the `resume` branch
looks up the attribute `resume_stream` on the instance/class.
-/

/-- The names the module `datastreamer.py` defines at global scope: its four
imports (`import requests`, `import zstandard as zstd`, `import io`,
`import chess.pgn`, the last binding `chess`) and the class itself.  The
module never assigns a global `url`. -/
def moduleGlobals : List String :=
  ["requests", "zstd", "io", "chess", "DataStreamer"]

/-- The attributes the class body of `datastreamer.DataStreamer` defines:
its four methods.  `resume_stream` is not among them, and `__init__`
assigns no instance attribute before calling it. -/
def classAttrs : List String :=
  ["__init__", "new_stream", "read_game", "tell"]

/-- The two Python runtime errors the constructor can raise. -/
inductive PyError where
  | nameError (n : String)
  | attributeError (n : String)
deriving DecidableEq, Repr

/-- Models `new_stream(self, buffer_size)`: its first statement is
`requests.get(url, stream=True)`, which evaluates the bare name `url`; the
module defines no such global, so the lookup raises `NameError`.  (The dead
success branch — the rest of the method is network and decompression I/O —
is modelled as a bare success.) -/
def new_stream (_buffer_size : Nat) : Except PyError Unit :=
  if "url" ∈ moduleGlobals then .ok () else .error (.nameError "url")

/-- Models `DataStreamer.__init__(self, url, resume=False, buffer_size=16*10**6)`:
with `resume` false it calls `self.new_stream(buffer_size)` (ignoring its
`url` parameter), with `resume` true it looks up `self.resume_stream`,
an attribute the class never defines. -/
def DataStreamer_init (url : String) (resume : Bool) (buffer_size : Nat) :
    Except PyError Unit :=
  if !resume then new_stream buffer_size
  else if "resume_stream" ∈ classAttrs then .ok ()
  else .error (.attributeError "resume_stream")

end DatastreamerAlt

namespace DataStreamerPy

/-- The specification's concrete single-block scenario: the data-frame
magic, two remaining frame-header bytes, and one block header encoding
`content_size = 100`, `is_last = 1` (header value `801 = 100 * 8 + 1`,
little-endian bytes `0x21 0x03 0x00`).  Only these 9 header bytes are ever
fetched by the size computation: the block's 100 content bytes and the
4 checksum bytes that would follow are never read. -/
def singleBlockFrame : ByteStream :=
  [0x28, 0xB5, 0x2F, 0xFD, 0x00, 0x00, 0x21, 0x03, 0x00]

theorem singleBlockFrame_header :
    check_block_header singleBlockFrame 6 = some (1, 109) := by decide

theorem singleBlockFrame_size : get_frame_size singleBlockFrame 0 = some 10 := by
  have hw : walk_blocks singleBlockFrame 6 = some 6 :=
    walk_blocks_last singleBlockFrame_header (by decide)
  simp [get_frame_size, hw]

theorem singleBlockFrame_locate : find_data_frame singleBlockFrame 0 = .ok 0 :=
  @find_data_frame_data singleBlockFrame 0 [0x28, 0xB5, 0x2F, 0xFD]
    (by decide) (by decide)

/-- C1: the claim fails on the code.  At the claim's own concrete scenario —
a single block with `content_size = 100` and `is_last = 1` —
`get_frame_size` returns 10, not the claimed `6 + (3 + 100) + 4 = 113`:
the loop records the last block's start offset (`last_pos`) before reading
its header, so the returned size omits the final block's 3-byte header and
its content. -/
theorem c1_get_frame_size_single_block_is_ten :
    get_frame_size singleBlockFrame 0 = some 10 ∧
    (10 : Int) ≠ 6 + (3 + 100) + 4 :=
  ⟨singleBlockFrame_size, by decide⟩

/-- C2: the claim fails on the code.  On a stream holding a data frame at
offset 0 whose computed size is 10, `download_frame` (the specification's
`StreamCursor.advance`) returns Python `None` and leaves the instance state
— in particular `current_pos = 0` — exactly as it was, instead of setting
`current_pos` to `frame_start + frame_size = 10` and returning that
offset. -/
theorem c2_download_frame_neither_advances_nor_returns_offset :
    download_frame singleBlockFrame ⟨"lichess", 0⟩ 0 =
      (.ok none, ⟨"lichess", 0⟩) := by
  simp [download_frame, singleBlockFrame_locate, singleBlockFrame_size]

/-- C3: for every chain of `k ≥ 0` valid skippable frames preceding a data
frame at offset `d`, `find_data_frame` started at the chain's first offset
returns `d` and performs exactly `k + 1` magic-number reads; the `k = 0`
case of the chain is precisely "the magic at the given offset is already
the data-frame constant", and there the offset is returned unchanged
(`d = pos`). -/
theorem c3_locate_resolves_skippable_chain {s : ByteStream} {pos k d : Nat}
    (h : ChainToData s pos k d) :
    find_data_frame s pos = .ok d ∧ magic_reads s pos = k + 1 := by
  induction h with
  | data pos mb hm hd =>
    exact ⟨find_data_frame_data hm hd,
      magic_reads_not_skippable hm (by rw [hd]; decide)⟩
  | skip pos k d mb fsb hm hsk hf hrest ih =>
    have hr : skip_frame s pos = some (pos + 8 + fromBytesLE fsb) := by
      unfold skip_frame
      rw [hf]
    exact ⟨(find_data_frame_skip_step hm hsk hr).trans ih.1,
      by rw [magic_reads_skip_step hm hsk hr, ih.2]; omega⟩

/-- C3 witness: one skippable frame at offset 0 declaring 2 content bytes,
then a data frame at offset 10; the locator returns 10 after exactly 2
magic-number reads. -/
theorem c3_locate_resolves_skippable_chain_witness :
    find_data_frame [0x50, 0x2A, 0x4D, 0x18, 2, 0, 0, 0, 0xAA, 0xBB,
        0x28, 0xB5, 0x2F, 0xFD] 0 = .ok 10 ∧
    magic_reads [0x50, 0x2A, 0x4D, 0x18, 2, 0, 0, 0, 0xAA, 0xBB,
        0x28, 0xB5, 0x2F, 0xFD] 0 = 2 :=
  c3_locate_resolves_skippable_chain
    (ChainToData.skip 0 0 10 [0x50, 0x2A, 0x4D, 0x18] [2, 0, 0, 0]
      (by decide) (by decide) (by decide)
      (ChainToData.data 10 [0x28, 0xB5, 0x2F, 0xFD] (by decide) (by decide)))

/-- C4: whenever the 3-byte read at `pos` succeeds and decodes little-endian
to `header`, `check_block_header` returns `is_last = header &&& 1` (the
least-significant bit) and `next_offset = pos + 3 + (header >>> 3)`. -/
theorem c4_check_block_header_decodes (s : ByteStream) (pos : Nat)
    (hb : List Nat) (h : get_n_bytes s pos 3 = some hb) :
    check_block_header s pos =
      some (fromBytesLE hb &&& 1, pos + 3 + (fromBytesLE hb >>> 3)) := by
  simp [check_block_header, h, binDigits_getLastD, binDigits_getLast?,
    Nat.and_one_is_mod]

/-- C4 witness: header bytes `0x21 0x03 0x00` decode to 801; the block is
flagged last (801 &&& 1 = 1) and the next block offset is
0 + 3 + 801 >>> 3 = 103. -/
theorem c4_check_block_header_decodes_witness :
    check_block_header [0x21, 0x03, 0x00] 0 = some (1, 103) :=
  (@c4_check_block_header_decodes [0x21, 0x03, 0x00] 0 [0x21, 0x03, 0x00]
    (by decide)).trans (by decide)

/-- C5: whenever the 4 bytes at `pos` decode little-endian to neither magic
constant, `find_data_frame` raises the format error (exact 32-bit match,
no prefix matching). -/
theorem c5_unrecognized_magic_raises (s : ByteStream) (pos : Nat)
    (mb : List Nat) (h : get_n_bytes s pos 4 = some mb)
    (h1 : fromBytesLE mb ≠ FRAME_MAGIC_NUMBER)
    (h2 : fromBytesLE mb ≠ SKIPPABLE_MAGIC_NUMBER) :
    find_data_frame s pos = .error .formatError :=
  find_data_frame_bad_magic h h2 h1

/-- C5 witness: the magic bytes `0xFD 0xB5 0x2F 0xFD` read little-endian as
`0xFD2FB5FD`, which differs from `0xFD2FB528` in its low byte, and the
locator raises the format error rather than matching a prefix. -/
theorem c5_unrecognized_magic_raises_witness :
    fromBytesLE [0xFD, 0xB5, 0x2F, 0xFD] = 0xFD2FB5FD ∧
    find_data_frame [0xFD, 0xB5, 0x2F, 0xFD] 0 = .error .formatError :=
  ⟨by decide,
   @c5_unrecognized_magic_raises [0xFD, 0xB5, 0x2F, 0xFD] 0
     [0xFD, 0xB5, 0x2F, 0xFD] (by decide) (by decide) (by decide)⟩

/-- C6: at an offset carrying the skippable magic whose following 4 bytes
decode to `skip_size`, the skip lands at `offset + 8 + skip_size`, and the
locator continues exactly there. -/
theorem c6_skippable_frame_skip (s : ByteStream) (pos : Nat)
    (mb fsb : List Nat)
    (hm : get_n_bytes s pos 4 = some mb)
    (hsk : fromBytesLE mb = SKIPPABLE_MAGIC_NUMBER)
    (hf : get_n_bytes s (pos + 4) 4 = some fsb) :
    skip_frame s pos = some (pos + 8 + fromBytesLE fsb) ∧
    find_data_frame s pos = find_data_frame s (pos + 8 + fromBytesLE fsb) := by
  have hr : skip_frame s pos = some (pos + 8 + fromBytesLE fsb) := by
    unfold skip_frame
    rw [hf]
  exact ⟨hr, find_data_frame_skip_step hm hsk hr⟩

/-- C6 witness: a skippable frame at offset 0 with declared size 10 makes
the locator inspect offset 0 + 8 + 10 = 18 next. -/
theorem c6_skippable_frame_skip_witness :
    skip_frame [0x50, 0x2A, 0x4D, 0x18, 0x0A, 0x00, 0x00, 0x00] 0 = some 18 ∧
    find_data_frame [0x50, 0x2A, 0x4D, 0x18, 0x0A, 0x00, 0x00, 0x00] 0 =
      find_data_frame [0x50, 0x2A, 0x4D, 0x18, 0x0A, 0x00, 0x00, 0x00] 18 :=
  @c6_skippable_frame_skip [0x50, 0x2A, 0x4D, 0x18, 0x0A, 0x00, 0x00, 0x00] 0
    [0x50, 0x2A, 0x4D, 0x18] [0x0A, 0x00, 0x00, 0x00]
    (by decide) (by decide) (by decide)

theorem download_frame_state (s : ByteStream) (st : DataStreamerState)
    (byte_pos : Nat) : (download_frame s st byte_pos).2 = st := by
  unfold download_frame
  split
  · rfl
  · split
    · rfl
    · rfl

/-- C7: if `download_frame` (the specification's `StreamCursor.advance`)
fails at any point, the instance state — in particular `current_pos`, the
cursor's current offset — after the call equals the state before it, so a
retry resumes from the last known-good offset.  (The method in fact never
assigns the state on any path.) -/
theorem c7_fetch_failure_leaves_cursor (s : ByteStream)
    (st : DataStreamerState) (byte_pos : Nat) (e : StreamError)
    (h : (download_frame s st byte_pos).1 = .error e) :
    (download_frame s st byte_pos).2 = st :=
  download_frame_state s st byte_pos

/-- C7 witness: on the empty archive every fetch fails; `download_frame`
raises the fetch error and leaves the state `{url := "lichess",
current_pos := 7}` untouched. -/
theorem c7_fetch_failure_leaves_cursor_witness :
    (download_frame [] ⟨"lichess", 7⟩ 0).1 = .error .fetchError ∧
    (download_frame [] ⟨"lichess", 7⟩ 0).2 = ⟨"lichess", 7⟩ := by
  have hf : find_data_frame ([] : ByteStream) 0 = .error .fetchError :=
    find_data_frame_fetch_fail (by decide)
  have h1 : (download_frame [] ⟨"lichess", 7⟩ 0).1 = .error .fetchError := by
    simp [download_frame, hf]
  exact ⟨h1, @c7_fetch_failure_leaves_cursor [] ⟨"lichess", 7⟩ 0 .fetchError h1⟩

/-- C8: every traversal step strictly increases the offset: a successful
`skip_frame` moves at least 8 bytes forward, and a successful
`check_block_header` places the next block at least 3 bytes forward, so no
frame-location or block-walking step ever moves backwards or stalls. -/
theorem c8_traversal_steps_strictly_increase (s : ByteStream) (pos : Nat) :
    (∀ r, skip_frame s pos = some r → pos + 8 ≤ r) ∧
    (∀ b n, check_block_header s pos = some (b, n) → pos + 3 ≤ n) :=
  ⟨fun _ h => skip_frame_ge h, fun _ _ h => (check_block_header_bounds h).2⟩

/-- C8 witness: on the stream `[1,0,0,0,2,0,0,0]`, the skip from offset 0
lands at 10 ≥ 0 + 8 and the block step from offset 0 lands at 3 ≥ 0 + 3. -/
theorem c8_traversal_steps_strictly_increase_witness :
    (0 : Nat) + 8 ≤ 10 ∧ (0 : Nat) + 3 ≤ 3 :=
  ⟨(c8_traversal_steps_strictly_increase [1, 0, 0, 0, 2, 0, 0, 0] 0).1 10
      (by decide),
   (c8_traversal_steps_strictly_increase [1, 0, 0, 0, 2, 0, 0, 0] 0).2 1 3
      (by decide)⟩

/-- C9: under the precondition that the chain of block headers starting at
`byte_pos + 6` reaches a header with set least-significant bit, the
block-walking loop of `get_frame_size` terminates and produces a size; the
well-founded measure justifying it is that each successful step moves the
position forward by at least 3 bytes. -/
theorem c9_frame_size_loop_terminates (s : ByteStream) (byte_pos : Nat)
    (h : BlocksReachLast s (byte_pos + 6)) :
    (∃ fs, get_frame_size s byte_pos = some fs) ∧
    (∀ p b n, check_block_header s p = some (b, n) → p + 3 ≤ n) := by
  constructor
  · obtain ⟨l, hl⟩ := walk_blocks_isSome_of_reach h
    exact ⟨(l : Int) - byte_pos + 4, by simp [get_frame_size, hl]⟩
  · exact fun p b n hc => (check_block_header_bounds hc).2

/-- C9 witness: on the single-block frame the chain at offset 6 is its one
flagged header, and the size computation terminates with a value. -/
theorem c9_frame_size_loop_terminates_witness :
    (∃ fs, get_frame_size singleBlockFrame 0 = some fs) ∧
    (∀ p b n, check_block_header singleBlockFrame p = some (b, n) →
      p + 3 ≤ n) :=
  c9_frame_size_loop_terminates singleBlockFrame 0
    (BlocksReachLast.last 6 1 109 singleBlockFrame_header (by decide))

end DataStreamerPy

namespace DatastreamerAlt

/-- C10: constructing `datastreamer.DataStreamer` raises for every input:
with `resume = False` the constructor calls `new_stream`, whose
`requests.get(url, stream=True)` evaluates the global name `url` that the
module never defines (the constructor's `url` parameter is ignored), so a
`NameError` is raised; with `resume = True` it looks up
`self.resume_stream`, an attribute the class does not define, so an
`AttributeError` is raised. -/
theorem c10_init_always_raises (url : String) (resume : Bool)
    (buffer_size : Nat) :
    DataStreamer_init url resume buffer_size =
      .error (if resume then .attributeError "resume_stream"
              else .nameError "url") := by
  cases resume <;> rfl

end DatastreamerAlt
